import Mathlib

/-!
Verification of the query-execution and connection-pool subsystem of
`app.py` (a FastAPI gateway executing SELECT queries against PostgreSQL
through a `psycopg2` `ThreadedConnectionPool`).

The embedding translates the `execute_query` endpoint (app.py lines
78-145), the validation step, the pool interaction and the
try/except/finally control flow into pure Lean functions.  The database
transport and the driver are external: one request's interaction with
them is abstracted as a `DbOutcome` oracle value, while the pool
bookkeeping follows psycopg2's pool semantics (`getconn` raises a
`PoolError` immediately when the pool is closed or exhausted; it never
blocks).  Character-level operations (`str.strip`, `str.lower`) are
modelled over ASCII, which is the fragment the claims exercise.
-/

namespace ApiApp

/-- The whitespace characters stripped by Python's `str.strip()`
(ASCII fragment). -/
def pyIsSpace (c : Char) : Bool :=
  c = ' ' || c = '\t' || c = '\n' || c = '\x0d' || c = '\x0b' || c = '\x0c'

/-- Python `str.strip()`: drop leading and trailing whitespace. -/
def pyStrip (s : List Char) : List Char :=
  ((s.dropWhile pyIsSpace).reverse.dropWhile pyIsSpace).reverse

/-- Python `str.lower()` (ASCII fragment): lowercase each character. -/
def pyLower (s : List Char) : List Char :=
  s.map Char.toLower

/-- `clean_query = request.query.strip().lower()` (app.py line 90). -/
def clean_query (q : List Char) : List Char :=
  pyLower (pyStrip q)

/-- The characters of the keyword `select`. -/
def selectKeyword : List Char :=
  ['s', 'e', 'l', 'e', 'c', 't']

/-- The admission check `clean_query.startswith('select')`
(app.py line 91). -/
def validateQuery (q : List Char) : Bool :=
  selectKeyword.isPrefixOf (clean_query q)

/-- Dynamically-typed scalar row values passed through from the
database; values the claims never inspect structurally (floats, binary,
dates) are carried as opaque text. -/
inductive Value where
  | null
  | int (i : Int)
  | text (s : String)
  | bool (b : Bool)
  | blob (s : String)
  deriving DecidableEq, Repr

/-- Python-dict assignment `d[k] = v`: an existing key keeps its
position and gets the new value; a new key is appended. -/
def dictInsert (d : List (String × Value)) (k : String) (v : Value) :
    List (String × Value) :=
  if d.any (fun p => p.1 = k) then
    d.map (fun p => if p.1 = k then (k, v) else p)
  else
    d ++ [(k, v)]

/-- Python `dict(pairs)`: insert the pairs left to right into an empty
insertion-ordered dict. -/
def pyDict (ps : List (String × Value)) : List (String × Value) :=
  ps.foldl (fun d p => dictInsert d p.1 p.2) []

/-- `dict(zip(columns, row))` (app.py line 108): `zip` truncates to the
shorter sequence, then the pairs build an insertion-ordered dict. -/
def rowToDict (columns : List String) (row : List Value) :
    List (String × Value) :=
  pyDict (columns.zip row)

/-- The keys of a row mapping, in order. -/
def dictKeys (d : List (String × Value)) : List String :=
  d.map Prod.fst

/-- State of the `psycopg2.pool.ThreadedConnectionPool`: the configured
maximum, the number of currently leased connections, and whether
`closeall()` has been called. -/
structure Pool where
  maxconn : Nat
  leased : Nat
  closed : Bool
  deriving DecidableEq, Repr

/-- The two failure modes of `psycopg2`'s `getconn`; both raise
`psycopg2.pool.PoolError`, a subclass of `psycopg2.Error`. -/
inductive PoolErrorKind where
  | exhausted
  | closed
  deriving DecidableEq, Repr

/-- `str(e)` for a psycopg2 `PoolError`. -/
def poolErrorMsg : PoolErrorKind → String
  | .exhausted => "connection pool exhausted"
  | .closed => "connection pool is closed"

/-- `connection_pool.getconn()` per psycopg2's pool semantics: raises
`PoolError("connection pool is closed")` if `closeall()` has run,
raises `PoolError("connection pool exhausted")` immediately (no
blocking, no wait timeout) when all `maxconn` connections are leased,
and otherwise leases one connection. -/
def getconn (p : Pool) : Except PoolErrorKind Pool :=
  if p.closed then .error .closed
  else if p.maxconn ≤ p.leased then .error .exhausted
  else .ok { p with leased := p.leased + 1 }

/-- `connection_pool.putconn(conn)`: the leased connection returns to
the idle set. -/
def putconn (p : Pool) : Pool :=
  { p with leased := p.leased - 1 }

/-- `connection_pool.closeall()` (app.py lines 147-152): closes every
connection and moves the pool to its terminal closed state. -/
def closeall (p : Pool) : Pool :=
  { p with leased := 0, closed := true }

/-- One request's interaction with the database once a connection and a
cursor are held (app.py lines 99-110), abstracted as an oracle: either
`cursor.description` is a (possibly empty) column list with fetched
rows, or it is `None`, or the execution raises one of the exception
classes distinguished by the handlers at app.py lines 119-142. -/
inductive DbOutcome where
  | resultSet (columns : List String) (rows : List (List Value))
  | noDescription
  | undefinedTable (msg : String)
  | syntaxError (msg : String)
  | dbError (msg : String)
  | otherError (msg : String)
  deriving Repr

/-- What the caller of the endpoint observes: either the success body
`{"query": ..., "results": ...}` or an `HTTPException` with an HTTP
status code and a `detail` string. -/
inductive QueryOutcome where
  | success (query : List Char) (results : List (List (String × Value)))
  | failure (status : Nat) (detail : String)
  deriving Repr

/-- The observable effect of one call to the endpoint: the response,
whether `conn = connection_pool.getconn()` completed (so `'conn' in
locals()` holds in the `finally` block), how many times `putconn` ran,
and the pool state after the call. -/
structure ExecTrace where
  outcome : QueryOutcome
  acquired : Bool
  releases : Nat
  pool : Pool
  deriving Repr

/-- The `except`/`finally` tail of `execute_query` for the paths on
which a connection was acquired (app.py lines 99-145): the cursor
interaction either returns a response or raises, each `except` arm
re-raises the corresponding `HTTPException`, and the `finally` block
sees `'conn' in locals()` and calls `putconn` exactly once. -/
def runWithConn (q : List Char) (db : DbOutcome) (pAcq : Pool) :
    ExecTrace :=
  let outcome :=
    match db with
    | .resultSet columns rows =>
        if columns.isEmpty then
          QueryOutcome.success q []
        else
          QueryOutcome.success q (rows.map (fun row => rowToDict columns row))
    | .noDescription =>
        QueryOutcome.success q []
    | .undefinedTable msg =>
        QueryOutcome.failure 400 ("Table does not exist: " ++ msg)
    | .syntaxError msg =>
        QueryOutcome.failure 400 ("SQL syntax error: " ++ msg)
    | .dbError msg =>
        QueryOutcome.failure 500 ("Database error: " ++ msg)
    | .otherError _ =>
        QueryOutcome.failure 500 "Internal server error"
  { outcome := outcome
    acquired := true
    releases := 1
    pool := putconn pAcq }

/-- The endpoint `execute_query` (app.py lines 78-145).  Control flow of
the source: inside `try`, the admission check either raises an
`HTTPException(400)` — which, being an `Exception`, is caught by the
blanket `except Exception` handler at line 137 and replaced by
`HTTPException(500, "Internal server error")`, with no connection ever
acquired — or the code calls `getconn` (a raised `PoolError` is a
`psycopg2.Error`, caught at line 131 as `"Database error: " ++ str(e)`
with status 500 and `'conn' not in locals()`), and then runs the cursor
interaction with the guaranteed `finally` release. -/
def execute_query (p : Pool) (q : List Char) (db : DbOutcome) :
    ExecTrace :=
  if validateQuery q then
    match getconn p with
    | .error e =>
        { outcome := .failure 500 ("Database error: " ++ poolErrorMsg e)
          acquired := false
          releases := 0
          pool := p }
    | .ok pAcq => runWithConn q db pAcq
  else
    { outcome := .failure 500 "Internal server error"
      acquired := false
      releases := 0
      pool := p }

end ApiApp

namespace ApiApp

/-- `getconn` succeeds on an open pool with spare capacity and leases
one more connection. -/
lemma getconn_ok (p : Pool) (hopen : p.closed = false)
    (hcap : p.leased < p.maxconn) :
    getconn p = .ok { p with leased := p.leased + 1 } := by
  simp [getconn, hopen, Nat.not_le.mpr hcap]

/-- On a validated query with an open, non-full pool, `execute_query`
runs the cursor interaction on the pool with one more lease. -/
lemma execute_query_ok (p : Pool) (q : List Char) (db : DbOutcome)
    (hval : validateQuery q = true) (hopen : p.closed = false)
    (hcap : p.leased < p.maxconn) :
    execute_query p q db = runWithConn q db { p with leased := p.leased + 1 } := by
  simp [execute_query, hval, getconn_ok p hopen hcap]

/-- Inserting a key absent from the dict appends it. -/
lemma dictInsert_of_not_mem (d : List (String × Value)) (k : String)
    (v : Value) (h : ∀ p ∈ d, p.1 ≠ k) :
    dictInsert d k v = d ++ [(k, v)] := by
  unfold dictInsert
  rw [if_neg]
  simp only [List.any_eq_true, decide_eq_true_eq, not_exists]
  intro x
  exact fun hx => h x hx.1 hx.2

/-- Folding dict insertion over pairs whose keys are fresh for the
accumulator and mutually distinct just appends the pairs. -/
lemma foldl_dictInsert_nodup (ps : List (String × Value)) :
    ∀ d : List (String × Value),
      (d.map Prod.fst ++ ps.map Prod.fst).Nodup →
      ps.foldl (fun d p => dictInsert d p.1 p.2) d = d ++ ps := by
  induction ps with
  | nil => intro d _; simp
  | cons p ps ih =>
      intro d h
      have hdisj := List.disjoint_of_nodup_append h
      have hfresh : ∀ x ∈ d, x.1 ≠ p.1 := by
        intro x hx
        exact fun he =>
          hdisj (List.mem_map_of_mem Prod.fst hx) (he ▸ List.mem_cons_self x.1 _)
      have hstep := dictInsert_of_not_mem d p.1 p.2 hfresh
      have h' : ((d ++ [p]).map Prod.fst ++ ps.map Prod.fst).Nodup := by
        simpa [List.append_assoc] using h
      calc (p :: ps).foldl (fun d p => dictInsert d p.1 p.2) d
          = ps.foldl (fun d p => dictInsert d p.1 p.2) (dictInsert d p.1 p.2) := rfl
        _ = ps.foldl (fun d p => dictInsert d p.1 p.2) (d ++ [p]) := by rw [hstep]
        _ = (d ++ [p]) ++ ps := ih (d ++ [p]) h'
        _ = d ++ p :: ps := by simp

/-- `dict(pairs)` with pairwise-distinct keys keeps the pairs as given. -/
lemma pyDict_of_nodup (ps : List (String × Value))
    (h : (ps.map Prod.fst).Nodup) : pyDict ps = ps :=
  foldl_dictInsert_nodup ps [] (by simpa using h)

/-- With pairwise-distinct column names and a row of matching arity,
`dict(zip(columns, row))` has keys exactly the column sequence, in
order. -/
lemma dictKeys_rowToDict (columns : List String) (row : List Value)
    (hnd : columns.Nodup) (hlen : columns.length ≤ row.length) :
    dictKeys (rowToDict columns row) = columns := by
  have hz : (columns.zip row).map Prod.fst = columns :=
    List.map_fst_zip columns row hlen
  unfold rowToDict dictKeys
  rw [pyDict_of_nodup _ (by rw [hz]; exact hnd), hz]

/-- A text of only whitespace strips to the empty text. -/
lemma pyStrip_all_space (s : List Char)
    (h : ∀ c ∈ s, pyIsSpace c = true) : pyStrip s = [] := by
  unfold pyStrip
  have h1 : s.dropWhile pyIsSpace = [] :=
    List.dropWhile_eq_nil_iff.mpr (by intro c hc; simp [h c hc])
  rw [h1]
  rfl

/-- Claim C1 (code bug): on the non-SELECT query text
`"DROP TABLE users"` the endpoint does reject without touching the pool
(nothing acquired, leased count unchanged), but the caller sees HTTP
500 with detail `"Internal server error"` rather than the claimed
bad-request status: the `HTTPException(400, "Only SELECT queries are
allowed")` raised inside the `try` body (app.py line 92) is caught by
the blanket `except Exception` handler (line 137) and replaced by a 500.
This theorem evaluates the embedded endpoint at the failing input. -/
theorem c1_invalid_query_actual_behavior :
    execute_query ⟨10, 0, false⟩ "DROP TABLE users".toList .noDescription =
      { outcome := .failure 500 "Internal server error", acquired := false,
        releases := 0, pool := ⟨10, 0, false⟩ } := rfl

/-- Claim C2: on every execution path of the endpoint, `putconn` runs
exactly once when a connection was acquired (successful result,
classified database failure, or uncaught failure) and zero times when
none was (validation failure or acquisition failure). -/
theorem c2_release_iff_acquired (p : Pool) (q : List Char)
    (db : DbOutcome) :
    (execute_query p q db).releases =
      if (execute_query p q db).acquired then 1 else 0 := by
  unfold execute_query
  by_cases hval : validateQuery q = true
  · rw [if_pos hval]
    cases hg : getconn p with
    | error e => simp
    | ok pAcq => simp [runWithConn]
  · rw [if_neg hval]
    rfl

/-- Claim C9: the admission check is a bare `startswith('select')` with
no word-boundary requirement: `"selectx from t"` and `"selections"`
both pass validation, and on an open pool the endpoint goes on to
acquire a connection and submit them to the database. -/
theorem c9_no_word_boundary :
    validateQuery "selectx from t".toList = true ∧
    validateQuery "selections".toList = true ∧
    (execute_query ⟨10, 0, false⟩ "selectx from t".toList
        .noDescription).acquired = true ∧
    (execute_query ⟨10, 0, false⟩ "selections".toList
        .noDescription).acquired = true :=
  ⟨rfl, rfl, rfl, rfl⟩

/-- Claim C10: the empty query text and every query text consisting
only of whitespace fail validation (the trimmed text does not begin
with `select`), and the endpoint acquires no connection, releases
nothing, and leaves the pool unchanged. -/
theorem c10_whitespace_rejected_no_acquire (p : Pool) (db : DbOutcome)
    (s : List Char) (hws : ∀ c ∈ s, pyIsSpace c = true) :
    validateQuery s = false ∧
    execute_query p s db =
      { outcome := .failure 500 "Internal server error", acquired := false,
        releases := 0, pool := p } := by
  have hval : validateQuery s = false := by
    unfold validateQuery clean_query
    rw [pyStrip_all_space s hws]
    rfl
  refine ⟨hval, ?_⟩
  simp [execute_query, hval]

/-- Witness for claim C10 at the concrete whitespace-only text
`" \t\n"`. -/
theorem c10_witness :
    validateQuery " \t\n".toList = false ∧
    execute_query ⟨10, 0, false⟩ " \t\n".toList .noDescription =
      { outcome := .failure 500 "Internal server error", acquired := false,
        releases := 0, pool := ⟨10, 0, false⟩ } :=
  c10_whitespace_rejected_no_acquire ⟨10, 0, false⟩ .noDescription
    " \t\n".toList (by decide)

/-- Claim C3 counterexample: with the pool at maximum capacity (2 of 2
leased) and one more validated query issued, acquisition fails at once
with psycopg2's `PoolError("connection pool exhausted")`; the
`except psycopg2.Error` handler (app.py line 131) surfaces it as HTTP
500 — an internal-error status, not the service-unavailable status the
claim states (500 ≠ 503). -/
theorem c3_counterexample_pool_exhausted_status :
    (execute_query ⟨2, 2, false⟩ "select 1".toList .noDescription).outcome =
      .failure 500 "Database error: connection pool exhausted" ∧
    (500 : Nat) ≠ 503 :=
  ⟨rfl, by decide⟩

/-- Claim C3 (amended): when the pool is at maximum capacity and one
more acquisition is issued for a validated query, `getconn` fails
immediately (psycopg2's pool neither blocks nor waits on a timeout)
with the pool-exhausted error, surfaced as an internal-error (500)
status; no connection is leased and the pool is unchanged. -/
theorem c3_pool_exhausted_immediate_500 (p : Pool) (q : List Char)
    (db : DbOutcome) (hval : validateQuery q = true)
    (hopen : p.closed = false) (hfull : p.maxconn ≤ p.leased) :
    execute_query p q db =
      { outcome := .failure 500 "Database error: connection pool exhausted",
        acquired := false, releases := 0, pool := p } := by
  have hg : getconn p = .error .exhausted := by
    simp [getconn, hopen, hfull]
  simp [execute_query, hval, hg, poolErrorMsg]

/-- Witness for claim C3 at a concrete full pool. -/
theorem c3_witness :
    execute_query ⟨2, 2, false⟩ "select 1".toList .noDescription =
      { outcome := .failure 500 "Database error: connection pool exhausted",
        acquired := false, releases := 0, pool := ⟨2, 2, false⟩ } :=
  c3_pool_exhausted_immediate_500 ⟨2, 2, false⟩ "select 1".toList
    .noDescription rfl rfl (by decide)

/-- Claim C4 counterexample: after `closeall()` (the shutdown handler,
app.py lines 147-152), a validated query fails with psycopg2's
`PoolError("connection pool is closed")`, surfaced by the
`except psycopg2.Error` handler as HTTP 500 — an internal-error status,
not the service-unavailable status the claim states (500 ≠ 503). -/
theorem c4_counterexample_pool_closed_status :
    (execute_query (closeall ⟨10, 3, false⟩) "select 1".toList
        .noDescription).outcome =
      .failure 500 "Database error: connection pool is closed" ∧
    (500 : Nat) ≠ 503 :=
  ⟨rfl, by decide⟩

/-- Claim C4 (amended): after `closeall()` every subsequent validated
execute call fails with the pool-closed error, surfaced as an
internal-error (500) status; no connection is leased, the pool stays in
its terminal closed state (nothing ever resets the closed flag), and
shutdown closed every connection. -/
theorem c4_execute_after_shutdown_500 (p : Pool) (q : List Char)
    (db : DbOutcome) (hval : validateQuery q = true) :
    execute_query (closeall p) q db =
      { outcome := .failure 500 "Database error: connection pool is closed",
        acquired := false, releases := 0, pool := closeall p } ∧
    (closeall p).closed = true ∧ (closeall p).leased = 0 := by
  have hg : getconn (closeall p) = .error .closed := by
    simp [getconn, closeall]
  refine ⟨?_, rfl, rfl⟩
  simp [execute_query, hval, hg, poolErrorMsg]

/-- Witness for claim C4 at a concrete pool that is shut down. -/
theorem c4_witness :
    (execute_query (closeall ⟨10, 3, false⟩) "select 1".toList
        .noDescription =
      { outcome := .failure 500 "Database error: connection pool is closed",
        acquired := false, releases := 0, pool := closeall ⟨10, 3, false⟩ }) ∧
    (closeall (⟨10, 3, false⟩ : Pool)).closed = true ∧
    (closeall (⟨10, 3, false⟩ : Pool)).leased = 0 :=
  c4_execute_after_shutdown_500 ⟨10, 3, false⟩ "select 1".toList
    .noDescription rfl

/-- Claim C5 counterexample: when the database reports the duplicate
column sequence `["a", "a"]` (as for `select 1 as a, 2 as a`),
`dict(zip(columns, row))` collapses the duplicate key, so the returned
row mapping has keys `["a"]`, not the reported column sequence
`["a", "a"]`. -/
theorem c5_counterexample_duplicate_columns :
    (execute_query ⟨10, 0, false⟩ "select 1 as a, 2 as a".toList
        (.resultSet ["a", "a"] [[Value.int 1, Value.int 2]])).outcome =
      .success "select 1 as a, 2 as a".toList [[("a", Value.int 2)]] ∧
    dictKeys [("a", Value.int 2)] ≠ ["a", "a"] :=
  ⟨rfl, by decide⟩

/-- Claim C5 (amended): for every successful execution whose reported
column names are pairwise distinct and whose rows each have at least
the columns' arity (the database reports rows of exactly that arity),
each returned row mapping has keys exactly equal to, and ordered as,
the reported column sequence. -/
theorem c5_keys_match_columns_of_nodup (p : Pool) (q : List Char)
    (columns : List String) (rows : List (List Value))
    (hval : validateQuery q = true) (hopen : p.closed = false)
    (hcap : p.leased < p.maxconn) (hne : columns ≠ [])
    (hnd : columns.Nodup)
    (harity : ∀ r ∈ rows, r.length = columns.length) :
    (execute_query p q (.resultSet columns rows)).outcome =
      .success q (rows.map (fun row => rowToDict columns row)) ∧
    ∀ row ∈ rows, dictKeys (rowToDict columns row) = columns := by
  have hemp : columns.isEmpty = false := by
    cases columns with
    | nil => exact absurd rfl hne
    | cons a l => rfl
  constructor
  · rw [execute_query_ok p q _ hval hopen hcap]
    simp [runWithConn, hemp]
  · intro row hr
    exact dictKeys_rowToDict columns row hnd (le_of_eq (harity row hr).symm)

/-- Witness for claim C5 at the scenario `select 1 as one` with column
sequence `["one"]` and one row. -/
theorem c5_witness :
    ((execute_query ⟨10, 0, false⟩ "select 1 as one".toList
        (.resultSet ["one"] [[Value.int 1]])).outcome =
      .success "select 1 as one".toList
        ([[Value.int 1]].map (fun row => rowToDict ["one"] row))) ∧
    ∀ row ∈ [[Value.int 1]], dictKeys (rowToDict ["one"] row) = ["one"] :=
  c5_keys_match_columns_of_nodup ⟨10, 0, false⟩ "select 1 as one".toList
    ["one"] [[Value.int 1]] rfl rfl (by decide) (by decide) (by decide)
    (by decide)

/-- Claim C6: when the database raises `UndefinedTable`, the handler at
app.py lines 119-124 surfaces HTTP 400 (bad request) with the
table-does-not-exist detail, and the `finally` block releases the
borrowed connection exactly once, restoring the pool's leased count. -/
theorem c6_undefined_table_400_released (p : Pool) (q : List Char)
    (m : String) (hval : validateQuery q = true) (hopen : p.closed = false)
    (hcap : p.leased < p.maxconn) :
    (execute_query p q (.undefinedTable m)).outcome =
      .failure 400 ("Table does not exist: " ++ m) ∧
    (execute_query p q (.undefinedTable m)).acquired = true ∧
    (execute_query p q (.undefinedTable m)).releases = 1 ∧
    (execute_query p q (.undefinedTable m)).pool.leased = p.leased := by
  rw [execute_query_ok p q _ hval hopen hcap]
  refine ⟨rfl, rfl, rfl, ?_⟩
  simp [runWithConn, putconn]

/-- Witness for claim C6 at the scenario
`select * from nonexistent_table`. -/
theorem c6_witness :
    ((execute_query ⟨10, 0, false⟩ "select * from nonexistent_table".toList
        (.undefinedTable "relation does not exist")).outcome =
      .failure 400 ("Table does not exist: " ++ "relation does not exist")) ∧
    (execute_query ⟨10, 0, false⟩ "select * from nonexistent_table".toList
        (.undefinedTable "relation does not exist")).acquired = true ∧
    (execute_query ⟨10, 0, false⟩ "select * from nonexistent_table".toList
        (.undefinedTable "relation does not exist")).releases = 1 ∧
    (execute_query ⟨10, 0, false⟩ "select * from nonexistent_table".toList
        (.undefinedTable "relation does not exist")).pool.leased = 0 :=
  c6_undefined_table_400_released ⟨10, 0, false⟩
    "select * from nonexistent_table".toList "relation does not exist"
    rfl rfl (by decide)

/-- Claim C7 counterexample: for an `UndefinedTable` failure with raw
driver text `str(e)` equal to
`"relation nonexistent_table does not exist"`, the caller-visible
detail is that raw text verbatim behind a classifying prefix (app.py
line 123 interpolates `str(e)` into `detail`), so raw driver-specific
exception text does reach the caller, contradicting the claim. -/
theorem c7_counterexample_raw_text_reaches_caller :
    (execute_query ⟨10, 0, false⟩ "select * from nonexistent_table".toList
        (.undefinedTable "relation nonexistent_table does not exist")).outcome =
      .failure 400 ("Table does not exist: " ++
        "relation nonexistent_table does not exist") :=
  rfl

/-- Claim C7 (amended): the caller-visible error is a classifying
prefix followed by the raw driver exception text for the
`UndefinedTable`, `SyntaxError` and generic database-error handlers;
only the final catch-all for unexpected non-database failures hides the
raw text behind the generic message `"Internal server error"`. -/
theorem c7_error_detail_shapes (p : Pool) (q : List Char) (m : String)
    (hval : validateQuery q = true) (hopen : p.closed = false)
    (hcap : p.leased < p.maxconn) :
    (execute_query p q (.undefinedTable m)).outcome =
      .failure 400 ("Table does not exist: " ++ m) ∧
    (execute_query p q (.syntaxError m)).outcome =
      .failure 400 ("SQL syntax error: " ++ m) ∧
    (execute_query p q (.dbError m)).outcome =
      .failure 500 ("Database error: " ++ m) ∧
    (execute_query p q (.otherError m)).outcome =
      .failure 500 "Internal server error" := by
  refine ⟨?_, ?_, ?_, ?_⟩ <;> rw [execute_query_ok p q _ hval hopen hcap] <;> rfl

/-- Witness for claim C7 at a concrete raw driver message. -/
theorem c7_witness :
    ((execute_query ⟨10, 0, false⟩ "select 1".toList
        (.undefinedTable "raw driver text")).outcome =
      .failure 400 ("Table does not exist: " ++ "raw driver text")) ∧
    ((execute_query ⟨10, 0, false⟩ "select 1".toList
        (.syntaxError "raw driver text")).outcome =
      .failure 400 ("SQL syntax error: " ++ "raw driver text")) ∧
    ((execute_query ⟨10, 0, false⟩ "select 1".toList
        (.dbError "raw driver text")).outcome =
      .failure 500 ("Database error: " ++ "raw driver text")) ∧
    (execute_query ⟨10, 0, false⟩ "select 1".toList
        (.otherError "raw driver text")).outcome =
      .failure 500 "Internal server error" :=
  c7_error_detail_shapes ⟨10, 0, false⟩ "select 1".toList
    "raw driver text" rfl rfl (by decide)

/-- Claim C8: when the execution yields no described result set
(`cursor.description` is `None`), the endpoint succeeds with the
original query text verbatim and an empty results sequence (no columns,
no rows), releasing the connection once. -/
theorem c8_no_result_set_empty_results (p : Pool) (q : List Char)
    (hval : validateQuery q = true) (hopen : p.closed = false)
    (hcap : p.leased < p.maxconn) :
    (execute_query p q .noDescription).outcome = .success q [] ∧
    (execute_query p q .noDescription).releases = 1 := by
  rw [execute_query_ok p q _ hval hopen hcap]
  exact ⟨rfl, rfl⟩

/-- Witness for claim C8 at a concrete validated query. -/
theorem c8_witness :
    ((execute_query ⟨10, 0, false⟩ "select pg_sleep(0)".toList
        .noDescription).outcome =
      .success "select pg_sleep(0)".toList []) ∧
    (execute_query ⟨10, 0, false⟩ "select pg_sleep(0)".toList
        .noDescription).releases = 1 :=
  c8_no_result_set_empty_results ⟨10, 0, false⟩
    "select pg_sleep(0)".toList rfl rfl (by decide)

end ApiApp
